import Mathlib

set_option maxRecDepth 40000

/-!
# Verification of the portfolio worker (`worker/src/index.ts`)

Shallow embedding of the Cloudflare-Worker backend of the portfolio site:
request dispatch, the `/contact` submission pipeline (size cap, per-IP rate
limit, JSON/field/length/email validation, Turnstile verification, D1 insert,
best-effort Gmail notification), the `/go/:key` shortlink redirector, the
`/resume.pdf` server, and the `/badge` renderer.

External services (KV, D1, Turnstile, the OAuth2/Gmail endpoints, the static
asset origin) are modelled as explicit inputs; database writes are modelled as
the lists of rows each handler inserts.  JavaScript strings are modelled as
Lean `String`s, JS `Number` values (which may be `NaN`) as `Option ℚ`, and
epoch milliseconds (`Date.now()`) as `ℤ`.
-/

/-- The set of JavaScript `\s` (whitespace) characters, as used by the
email regular expression `/^[^@\s]{1,64}@[^\s@]{1,255}$/`. -/
def jsSpace (c : Char) : Bool :=
  [' ', '\t', '\n', '\r', '\x0b', '\x0c', ' ', ' ',
   ' ', ' ', ' ', ' ', ' ', ' ', ' ',
   ' ', ' ', ' ', ' ', ' ', ' ', ' ',
   ' ', '　', '﻿'].contains c

/-- Split a character list at its first `'@'`: returns the (necessarily
`'@'`-free) part before it and the part after it, or `none` when no `'@'`
occurs.  This is how the anchored regex `/^[^@\s]{1,64}@[^\s@]{1,255}$/`
decomposes its subject: the local part may not contain `'@'`, so the
separator is forced to be the first `'@'` of the string. -/
def splitFirstAt : List Char → Option (List Char × List Char)
  | [] => none
  | c :: cs =>
    if c = '@' then some ([], cs)
    else
      match splitFirstAt cs with
      | none => none
      | some (l, d) => some (c :: l, d)

/-- The email test on character lists: local part 1–64 chars, no `'@'`
(by the split) and no whitespace; then `'@'`; then domain part 1–255 chars
with no whitespace and no `'@'`.  Faithful to
`/^[^@\s]{1,64}@[^\s@]{1,255}$/.test(email)` (index.ts line 130). -/
def emailOkL (xs : List Char) : Bool :=
  match splitFirstAt xs with
  | none => false
  | some (l, d) =>
    decide (1 ≤ l.length) && decide (l.length ≤ 64) &&
    l.all (fun c => !jsSpace c) &&
    decide (1 ≤ d.length) && decide (d.length ≤ 255) &&
    d.all (fun c => !jsSpace c && !(c = '@'))

/-- `emailOk email` is the Worker's "simple email sanity check". -/
def emailOk (e : String) : Bool := emailOkL e.toList

/-- The spec's wording of the email check, as a predicate of its own (for
the refinement claim): the string consists of a local part of 1–64
characters containing no `'@'` and no whitespace, followed by `'@'`,
followed by a domain part of 1–255 characters containing no whitespace and
no `'@'`. -/
def specEmailOk (e : String) : Prop :=
  ∃ l d : List Char, e.toList = l ++ '@' :: d ∧
    1 ≤ l.length ∧ l.length ≤ 64 ∧ (∀ c ∈ l, c ≠ '@' ∧ jsSpace c = false) ∧
    1 ≤ d.length ∧ d.length ≤ 255 ∧ (∀ c ∈ d, c ≠ '@' ∧ jsSpace c = false)

/-! ## Rate limiter (`rateLimit`, index.ts lines 237–253) -/

/-- The per-IP rate-limit record stored in KV: `{count, reset}` with
`reset` an epoch-milliseconds deadline. -/
structure RateRec where
  count : ℤ
  reset : ℤ
deriving Repr, DecidableEq

/-- `windowMs = 10 * 60 * 1000`: the 10-minute rate-limit window. -/
def windowMs : ℤ := 10 * 60 * 1000

/-- `limit = 5`: the per-window request ceiling. -/
def rlLimit : ℤ := 5

/-- Result of one `rateLimit` call: whether the request is allowed
(`rec.count <= limit` after the increment), the record written back to KV,
and the `expirationTtl` passed to `KV.put`. -/
structure RLResult where
  allowed : Bool
  record : RateRec
  ttl : ℤ
deriving Repr, DecidableEq

/-- `rateLimit(env, ip, now)`: read the stored record (or start
`{count: 0, reset: now + windowMs}`), reset it when `now > reset`,
increment `count`, write it back with a TTL of
`Math.ceil((reset - now) / 1000)` seconds (the ceiling of an integer
division by 1000, written as a floor division of the shifted numerator),
and allow iff the post-increment count is at most the limit. -/
def rateLimit (recRaw : Option RateRec) (now : ℤ) : RLResult :=
  let rec0 : RateRec := recRaw.getD ⟨0, now + windowMs⟩
  let rec1 : RateRec := if now > rec0.reset then ⟨0, now + windowMs⟩ else rec0
  let rec2 : RateRec := ⟨rec1.count + 1, rec1.reset⟩
  { allowed := decide (rec2.count ≤ rlLimit)
    record := rec2
    ttl := (rec2.reset - now + 999).fdiv 1000 }

/-! ## The `/contact` pipeline (`handleContact`, index.ts lines 93–170) -/

/-- Outcome of `JSON.parse` on the request body followed by the
destructuring `const {name, email, message, turnstileToken} = body || {}`.
`malformed` is a parse exception (→ 400 "Invalid JSON body"); `parsed`
carries the four destructured fields, each either absent/`undefined`
(`none`) or a string.  A body that parses to a falsy or field-free value
is `parsed none none none none`. -/
inductive BodyParse where
  | malformed
  | parsed (name email message turnstileToken : Option String)
deriving Repr, DecidableEq

/-- JS truthiness of a string-or-undefined value (`!name` etc.):
`undefined` and `""` are falsy, every other string is truthy. -/
def truthy : Option String → Bool
  | none => false
  | some s => !(s = "")

/-- JS string coercion `x + ""` of a string-or-undefined value
(`undefined + "" = "undefined"`). -/
def jsPlusStr : Option String → String
  | none => "undefined"
  | some s => s

/-- JS `x > c` where `x : Option ℚ` models a JS number (`none` = `NaN`,
on which every comparison is false). -/
def jsGtQ : Option ℚ → ℚ → Bool
  | none, _ => false
  | some q, c => decide (c < q)

/-- A row of the `submissions` table, as bound by
`INSERT INTO submissions (name, email, message, ip, user_agent)`. -/
structure SubmissionRow where
  name : String
  email : String
  message : String
  ip : String
  ua : String
deriving Repr, DecidableEq

/-- A `POST /contact` request: `contentLength` is
`Number(headers.get("Content-Length") || "0")` (so a missing header gives
`some 0` and a non-numeric header gives `none` = `NaN`); `ip` and `ua` are
the `CF-Connecting-IP` and `User-Agent` headers after `|| ""`; `body` is
the parse of the request text. -/
structure ContactRequest where
  contentLength : Option ℚ
  ip : String
  ua : String
  body : BodyParse

/-- Outcome of `sendGmail`: the whole call throws (`threw`), the OAuth2
token exchange returns a non-success status (`tokenFail`), the
`messages/send` call returns a non-success status (`sendFail`), or the
message goes out (`sent`). -/
inductive GmailResult where
  | threw
  | tokenFail
  | sendFail
  | sent
deriving Repr, DecidableEq

/-- The boolean that reaches `delivered`:
`(await sendGmail(...).catch(() => false)) || false`. -/
def GmailResult.delivered : GmailResult → Bool
  | .sent => true
  | _ => false

/-- The external world one `/contact` request sees: the current time, the
stored rate-limit record for this IP, the truthiness of the Turnstile
verification's `success` field, whether the D1 insert succeeds (a failure
throws and is turned into a 500 by the router's catch), and the Gmail
outcome. -/
structure ContactWorld where
  now : ℤ
  rlRec : Option RateRec
  turnstileSuccess : Bool
  insertOk : Bool
  gmail : GmailResult

/-- Everything observable about one `/contact` request: the response
status, the `ok`/`delivered` body flags, the `error` body field, the rows
inserted into `submissions`, and the rate-limit record (with TTL) written
to KV, if any. -/
structure ContactResult where
  status : ℕ
  ok : Bool
  delivered : Bool
  error : Option String
  submissions : List SubmissionRow
  kvPut : Option (RateRec × ℤ)
deriving Repr, DecidableEq

/-- A `json({error: msg}, status)` response with no submission row. -/
def errRes (status : ℕ) (msg : String) (kvPut : Option (RateRec × ℤ)) : ContactResult :=
  { status := status, ok := false, delivered := false, error := some msg
    submissions := [], kvPut := kvPut }

/-- The validation and persistence part of `handleContact` that runs after
the size cap and rate limit (index.ts lines 108–169); `kv` is the
rate-limit record already written back. -/
def handleContactBody (req : ContactRequest) (w : ContactWorld)
    (kv : Option (RateRec × ℤ)) : ContactResult :=
  match req.body with
  | .malformed => errRes 400 "Invalid JSON body" kv
  | .parsed name email message token =>
    if truthy name = false ∨ truthy email = false ∨
        truthy message = false ∨ truthy token = false then
      errRes 400 "Missing required fields" kv
    else if 200 < (jsPlusStr name).length ∨ 320 < (jsPlusStr email).length ∨
        5000 < (jsPlusStr message).length then
      errRes 400 "Input too long" kv
    else if emailOk (jsPlusStr email) = false then
      errRes 400 "Invalid email" kv
    else if w.turnstileSuccess = false then
      errRes 400 "Turnstile verification failed" kv
    else if w.insertOk = false then
      -- the D1 insert throws; the router's catch yields the generic 500
      { status := 500, ok := false, delivered := false, error := none
        submissions := [], kvPut := kv }
    else
      { status := 200, ok := true, delivered := w.gmail.delivered, error := none
        submissions := [⟨jsPlusStr name, jsPlusStr email, jsPlusStr message,
                         req.ip, req.ua⟩]
        kvPut := kv }

/-- `handleContact` (index.ts lines 93–170): 413 on a declared
Content-Length above 65536; 429 when the rate limiter refuses; then the
body pipeline. -/
def handleContact (req : ContactRequest) (w : ContactWorld) : ContactResult :=
  if jsGtQ req.contentLength 65536 = true then
    errRes 413 "Payload too large" none
  else if (rateLimit w.rlRec w.now).allowed = false then
    errRes 429 "Too many requests, please try again later."
      (some ((rateLimit w.rlRec w.now).record, (rateLimit w.rlRec w.now).ttl))
  else
    handleContactBody req w
      (some ((rateLimit w.rlRec w.now).record, (rateLimit w.rlRec w.now).ttl))

/-! ## Responses, headers, and `withSecurityAndCacheHeaders`
(index.ts lines 51–89) -/

/-- Is `pat` a prefix of `xs`? (boolean, used for `String.startsWith`). -/
def isPrefixL (pat : List Char) : List Char → Bool
  | [] => pat.isEmpty
  | c :: cs =>
    match pat with
    | [] => true
    | p :: ps => p = c && isPrefixL ps cs

/-- Does `pat` occur as a contiguous substring of the list?
(JS `String.prototype.includes`). -/
def containsL (pat : List Char) : List Char → Bool
  | [] => pat.isEmpty
  | c :: cs => isPrefixL pat (c :: cs) || containsL pat cs

/-- JS `s.includes(sub)`. -/
def containsStr (s sub : String) : Bool := containsL sub.toList s.toList

/-- JS `s.startsWith(pre)`. -/
def startsWithStr (s pre : String) : Bool := isPrefixL pre.toList s.toList

/-- JS `String.prototype.trim()`: strip leading and trailing whitespace
(the same character set as `\s`). -/
def jsTrim (s : String) : String :=
  String.mk (((s.toList.dropWhile jsSpace).reverse.dropWhile jsSpace).reverse)

/-- `String.prototype.toLowerCase()` restricted to ASCII letters, which is
all the Content-Type comparison needs. -/
def lowerStr (s : String) : String := String.mk (s.toList.map Char.toLower)

/-- An HTTP response: status, body text, and a header map (`headers.get`). -/
structure Resp where
  status : ℕ
  body : String
  headers : String → Option String

/-- `Headers.set(k, v)` on the header map. -/
def hset (h : String → Option String) (k v : String) : String → Option String :=
  fun q => if q = k then some v else h q

/-- The Content-Security-Policy value built by the `[...].join("; ")`
at index.ts lines 55–67. -/
def cspValue : String :=
  "default-src 'self'; img-src 'self' data:; script-src 'self' https://challenges.cloudflare.com; style-src 'self' 'unsafe-inline'; connect-src 'self'; frame-src https://challenges.cloudflare.com; base-uri 'self'; form-action 'self'"

/-- The six fixed security headers set on every wrapped response. -/
def securityHeaders (h : String → Option String) : String → Option String :=
  hset (hset (hset (hset (hset (hset h
    "Content-Security-Policy" cspValue)
    "Referrer-Policy" "strict-origin-when-cross-origin")
    "X-Content-Type-Options" "nosniff")
    "X-Frame-Options" "DENY")
    "Strict-Transport-Security" "max-age=31536000; includeSubDomains; preload")
    "Permissions-Policy" "camera=(), microphone=(), geolocation=(), payment=()"

/-- `withSecurityAndCacheHeaders` (index.ts lines 51–89): set the security
headers, then a Content-Type–driven Cache-Control (HTML → `no-store`;
scripts/styles/images/PDF → a 7-day immutable policy), and rebuild the
response with the same body and status. -/
def withSecurityAndCacheHeaders (res : Resp) : Resp :=
  let h1 := securityHeaders res.headers
  let ct := lowerStr ((res.headers "Content-Type").getD "")
  let h2 :=
    if containsStr ct "text/html" then
      hset h1 "Cache-Control" "no-store"
    else if containsStr ct "javascript" || containsStr ct "text/css" ||
        startsWithStr ct "image/" || containsStr ct "application/pdf" then
      hset h1 "Cache-Control" "public, max-age=604800, immutable"
    else h1
  { status := res.status, body := res.body, headers := h2 }

/-! ## `/resume.pdf` (`handleResume`, index.ts lines 193–205) -/

/-- A row of the `downloads` table, as the values bound by
`INSERT INTO downloads (count, last_download_at) VALUES (1, datetime('now'))`
(the timestamp is computed by the database and not modelled). -/
structure DownloadRow where
  count : ℕ
deriving Repr, DecidableEq

/-- Observable outcome of one `/resume.pdf` request: the response sent to
the client and the rows inserted into `downloads`. -/
structure ResumeResult where
  resp : Resp
  downloads : List DownloadRow

/-- `handleResume` (index.ts lines 193–205): try to insert a `downloads`
row with `count = 1` inside `try { ... } catch { console.error(...) }`
(a failed insert inserts nothing and is swallowed), then fetch the static
file and return it through `withSecurityAndCacheHeaders`.  `insertOk`
says whether the D1 insert succeeds; `file` is the asset fetch's
response. -/
def handleResume (insertOk : Bool) (file : Resp) : ResumeResult :=
  { resp := withSecurityAndCacheHeaders file
    downloads := if insertOk then [⟨1⟩] else [] }

/-- The `downloads` rows accumulated over a sequence of `/resume.pdf`
requests (each element: whether that request's insert succeeds, and the
asset response it serves). -/
def runResume : List (Bool × Resp) → List DownloadRow
  | [] => []
  | (ok, f) :: t => (handleResume ok f).downloads ++ runResume t

/-! ## `/go/:key` (`handleShortlink`, index.ts lines 174–189) -/

/-- A row of the `clicks` table, as bound by
`INSERT INTO clicks (short_key, target_url, referrer, ip, user_agent)`. -/
structure ClickRow where
  short_key : String
  target_url : String
  referrer : String
  ip : String
  ua : String
deriving Repr, DecidableEq

/-- Observable outcome of one `/go/:key` request: status, plain-text body
(if any), `Location` target of the redirect (if any), and the rows
inserted into `clicks`. -/
structure SLResult where
  status : ℕ
  body : Option String
  location : Option String
  clicks : List ClickRow
deriving Repr, DecidableEq

/-- `handleShortlink` (index.ts lines 174–189): look up `shortlinks:<key>`
in KV; a miss is a plain-text 404 with no insert; a hit inserts one
`clicks` row and replies `Response.redirect(target, 302)`.  The click
insert is not guarded: `dbOk = false` means it throws, and the router's
catch turns that into the generic 500 (no row, no redirect).  `ref` is
the `ref` query parameter after `|| ""`. -/
def handleShortlink (kv : String → Option String) (dbOk : Bool)
    (key ref ip ua : String) : SLResult :=
  match kv ("shortlinks:" ++ key) with
  | none =>
    { status := 404, body := some "Shortlink not found"
      location := none, clicks := [] }
  | some target =>
    if dbOk then
      { status := 302, body := none, location := some target
        clicks := [⟨key, target, ref, ip, ua⟩] }
    else
      { status := 500, body := some "Internal Error"
        location := none, clicks := [] }

/-! ## `/badge` (`handleBadge`, index.ts lines 209–225) -/

/-- The flag resolution
`(await env.KV.get("open_to_work")) ?? env.OPEN_TO_WORK_DEFAULT ?? "true"`. -/
def resolveFlag (kvFlag envDefault : Option String) : String :=
  match kvFlag with
  | some s => s
  | none =>
    match envDefault with
    | some s => s
    | none => "true"

/-- The badge SVG template literal (before `.trim()`), with its two
interpolations decided by `open`. -/
def badgeSvgRaw (isOpen : Bool) : String :=
  "\n<svg xmlns=\"http://www.w3.org/2000/svg\" width=\"190\" height=\"28\">\n  <rect rx=\"4\" width=\"190\" height=\"28\" fill=\"" ++
  (if isOpen then "#2da44e" else "#d73a49") ++
  "\"/>\n  <text x=\"12\" y=\"19\" font-size=\"14\" fill=\"#fff\" font-family=\"system-ui, -apple-system, Segoe UI, Roboto\">\n    " ++
  (if isOpen then "Open to Opportunities ✅" else "Not Open ❌") ++
  "\n  </text>\n</svg>"

/-- `handleBadge` (index.ts lines 209–225): resolve the flag, render the
SVG for `flag === "true"`, and reply with `Content-Type: image/svg+xml`
and `Cache-Control: no-store`. -/
def handleBadge (kvFlag envDefault : Option String) : Resp :=
  { status := 200
    body := jsTrim (badgeSvgRaw (resolveFlag kvFlag envDefault = "true"))
    headers := fun k =>
      if k = "Content-Type" then some "image/svg+xml"
      else if k = "Cache-Control" then some "no-store"
      else none }

/-! ## Sequences of `/contact` requests (threading the KV rate state) -/

/-- One `/contact` attempt in a sequence: the request plus the parts of
the world that vary per request (time, Turnstile outcome, D1 outcome,
Gmail outcome). -/
structure StepIn where
  req : ContactRequest
  now : ℤ
  ts : Bool
  insertOk : Bool
  gmail : GmailResult

/-- Run a list of `/contact` attempts from the same IP, threading the KV
rate-limit record: each request sees the record the previous one wrote. -/
def runContacts : Option RateRec → List StepIn → List ContactResult
  | _, [] => []
  | st, i :: is =>
    let r := handleContact i.req
      { now := i.now, rlRec := st, turnstileSuccess := i.ts
        insertOk := i.insertOk, gmail := i.gmail }
    let st' := match r.kvPut with
      | some p => some p.1
      | none => st
    r :: runContacts st' is

/-! ## Lemmas about the email check -/

theorem splitFirstAt_eq_some {xs : List Char} {l d : List Char}
    (h : splitFirstAt xs = some (l, d)) : xs = l ++ '@' :: d ∧ '@' ∉ l := by
  induction xs generalizing l d with
  | nil => simp [splitFirstAt] at h
  | cons c cs ih =>
    by_cases hc : c = '@'
    · subst hc
      simp [splitFirstAt] at h
      obtain ⟨rfl, rfl⟩ := h
      simp
    · rw [splitFirstAt, if_neg hc] at h
      cases hsplit : splitFirstAt cs with
      | none => rw [hsplit] at h; simp at h
      | some p =>
        obtain ⟨l', d'⟩ := p
        rw [hsplit] at h
        simp at h
        obtain ⟨rfl, rfl⟩ := h
        obtain ⟨hx, hm⟩ := ih hsplit
        refine ⟨by simp [hx], ?_⟩
        intro hmem
        rcases List.mem_cons.mp hmem with h1 | h1
        · exact hc h1.symm
        · exact hm h1

theorem splitFirstAt_append (l d : List Char) (hl : '@' ∉ l) :
    splitFirstAt (l ++ '@' :: d) = some (l, d) := by
  induction l with
  | nil => simp [splitFirstAt]
  | cons c cs ih =>
    have hc : c ≠ '@' := fun h => hl (by simp [h])
    have hcs : '@' ∉ cs := fun h => hl (List.mem_cons_of_mem _ h)
    simp only [List.cons_append, splitFirstAt, if_neg hc]
    simp only [List.append_eq, ih hcs]

theorem splitFirstAt_eq_none {xs : List Char} (h : '@' ∉ xs) :
    splitFirstAt xs = none := by
  induction xs with
  | nil => rfl
  | cons c cs ih =>
    have hc : c ≠ '@' := fun hx => h (by simp [hx])
    have hcs : '@' ∉ cs := fun hx => h (List.mem_cons_of_mem _ hx)
    rw [splitFirstAt, if_neg hc, ih hcs]

/-- The code's email test agrees with the spec's description of it. -/
theorem emailOk_iff_specEmailOk (e : String) :
    emailOk e = true ↔ specEmailOk e := by
  unfold emailOk emailOkL specEmailOk
  constructor
  · intro h
    cases hsplit : splitFirstAt e.toList with
    | none => rw [hsplit] at h; simp at h
    | some p =>
      obtain ⟨l, d⟩ := p
      rw [hsplit] at h
      simp only [Bool.and_eq_true, decide_eq_true_eq, List.all_eq_true,
        Bool.not_eq_true'] at h
      obtain ⟨⟨⟨⟨⟨h1, h2⟩, h3⟩, h4⟩, h5⟩, h6⟩ := h
      obtain ⟨hx, hm⟩ := splitFirstAt_eq_some hsplit
      refine ⟨l, d, hx, h1, h2, ?_, h4, h5, ?_⟩
      · intro c hc
        exact ⟨fun hcc => hm (hcc ▸ hc), h3 c hc⟩
      · intro c hc
        have := h6 c hc
        simp only [Bool.and_eq_true, Bool.not_eq_true',
          Bool.not_eq_true, decide_eq_false_iff_not] at this
        exact ⟨this.2, this.1⟩
  · rintro ⟨l, d, hx, h1, h2, h3, h4, h5, h6⟩
    have hm : '@' ∉ l := fun hc => (h3 _ hc).1 rfl
    rw [hx, splitFirstAt_append l d hm]
    simp only [Bool.and_eq_true, decide_eq_true_eq, List.all_eq_true,
      Bool.not_eq_true']
    refine ⟨⟨⟨⟨⟨h1, h2⟩, fun c hc => (h3 c hc).2⟩, h4⟩, h5⟩, ?_⟩
    intro c hc
    simp only [Bool.and_eq_true, Bool.not_eq_true', Bool.not_eq_true,
      decide_eq_false_iff_not]
    exact ⟨(h6 c hc).2, (h6 c hc).1⟩

/-- A string with no `'@'` never passes the email test. -/
theorem emailOk_eq_false_of_no_at {e : String} (h : '@' ∉ e.toList) :
    emailOk e = false := by
  unfold emailOk emailOkL
  rw [splitFirstAt_eq_none h]

/-! ## Structural lemmas about `handleContact` -/

theorem handleContactBody_kvPut (req : ContactRequest) (w : ContactWorld)
    (kv : Option (RateRec × ℤ)) : (handleContactBody req w kv).kvPut = kv := by
  rcases hb : req.body with _ | ⟨n, e, m, t⟩ <;>
    simp only [handleContactBody, hb] <;> (try split_ifs) <;> simp [errRes]

theorem handleContactBody_status_ne_429 (req : ContactRequest)
    (w : ContactWorld) (kv : Option (RateRec × ℤ)) :
    (handleContactBody req w kv).status ≠ 429 := by
  rcases hb : req.body with _ | ⟨n, e, m, t⟩ <;>
    simp only [handleContactBody, hb] <;> (try split_ifs) <;> simp [errRes]

theorem handleContactBody_status_ne_413 (req : ContactRequest)
    (w : ContactWorld) (kv : Option (RateRec × ℤ)) :
    (handleContactBody req w kv).status ≠ 413 := by
  rcases hb : req.body with _ | ⟨n, e, m, t⟩ <;>
    simp only [handleContactBody, hb] <;> (try split_ifs) <;> simp [errRes]

theorem handleContact_kvPut (req : ContactRequest) (w : ContactWorld)
    (h : jsGtQ req.contentLength 65536 = false) :
    (handleContact req w).kvPut =
      some ((rateLimit w.rlRec w.now).record, (rateLimit w.rlRec w.now).ttl) := by
  unfold handleContact
  rw [h]
  by_cases ha : (rateLimit w.rlRec w.now).allowed = false
  · simp [ha, errRes]
  · simp [ha, handleContactBody_kvPut]

theorem handleContact_status429_iff (req : ContactRequest) (w : ContactWorld)
    (h : jsGtQ req.contentLength 65536 = false) :
    ((handleContact req w).status = 429 ↔
      (rateLimit w.rlRec w.now).allowed = false) := by
  unfold handleContact
  rw [h]
  by_cases ha : (rateLimit w.rlRec w.now).allowed = false
  · simp [ha, errRes]
  · simp [ha, handleContactBody_status_ne_429]

/-! ## Lemmas about the rate limiter -/

theorem rateLimit_none (now : ℤ) :
    rateLimit none now = ⟨true, ⟨1, now + windowMs⟩, 600⟩ := by
  unfold rateLimit
  simp only [Option.getD]
  rw [if_neg (show ¬ now > now + windowMs by unfold windowMs; omega)]
  have httl : now + windowMs - now + 999 = 600999 := by unfold windowMs; ring
  simp [RLResult.mk.injEq, RateRec.mk.injEq, httl, rlLimit]
  decide

theorem rateLimit_active (k R now : ℤ) (h : ¬ now > R) :
    (rateLimit (some ⟨k, R⟩) now).record = ⟨k + 1, R⟩ ∧
    (rateLimit (some ⟨k, R⟩) now).allowed = decide (k + 1 ≤ 5) := by
  unfold rateLimit
  simp only [Option.getD]
  rw [if_neg h]
  exact ⟨rfl, by simp [rlLimit]⟩

/-- C7: when the stored rate-limit record's reset timestamp is in the past
at the time of the next request, the counter is reset to zero with a new
10-minute window before the increment, so that request carries count 1
(request #1 of a fresh window) and passes the rate-limit check. -/
theorem c7_expired_window_resets (rec : RateRec) (now : ℤ)
    (h : rec.reset < now) :
    (rateLimit (some rec) now).record = ⟨1, now + windowMs⟩ ∧
    (rateLimit (some rec) now).allowed = true := by
  obtain ⟨k, R⟩ := rec
  unfold rateLimit
  simp only [Option.getD]
  rw [if_pos (show now > R from h)]
  refine ⟨rfl, ?_⟩
  simp [rlLimit]

/-- Witness for C7 at a concrete expired record. -/
theorem c7_expired_window_resets_witness :
    (rateLimit (some ⟨5, 0⟩) 1).record = ⟨1, 1 + windowMs⟩ ∧
    (rateLimit (some ⟨5, 0⟩) 1).allowed = true :=
  c7_expired_window_resets ⟨5, 0⟩ 1 (by decide)

/-! ## C1: validation failures -/

/-- The validation-failure conditions enumerated by the spec: unparsable
JSON, a required field missing (absent or empty, i.e. falsy), a length cap
exceeded, a malformed email, or a failed bot verification. -/
def contactValidationFails (req : ContactRequest) (w : ContactWorld) : Prop :=
  req.body = .malformed
  ∨ (∃ n e m t, req.body = .parsed n e m t ∧
      (truthy n = false ∨ truthy e = false ∨ truthy m = false ∨
       truthy t = false))
  ∨ (∃ n e m t, req.body = .parsed n e m t ∧
      (200 < (jsPlusStr n).length ∨ 320 < (jsPlusStr e).length ∨
       5000 < (jsPlusStr m).length))
  ∨ (∃ n e m t, req.body = .parsed n e m t ∧ emailOk (jsPlusStr e) = false)
  ∨ w.turnstileSuccess = false

theorem handleContactBody_validation (req : ContactRequest) (w : ContactWorld)
    (kv : Option (RateRec × ℤ)) (h : contactValidationFails req w) :
    (handleContactBody req w kv).status = 400 ∧
    (handleContactBody req w kv).submissions = [] := by
  rcases hb : req.body with _ | ⟨n, e, m, t⟩ <;>
    simp only [handleContactBody, hb] <;> (try split_ifs with h1 h2 h3 h4 h5) <;>
    simp_all [errRes, contactValidationFails, hb] <;>
    (rcases h with ⟨n', e', m', t', ⟨rfl, rfl, rfl, rfl⟩, hf⟩ |
       ⟨n', e', m', ⟨rfl, rfl, rfl⟩, hf⟩ | ⟨n', e', ⟨rfl, rfl⟩, hf⟩) <;>
    (try simp_all) <;> omega

/-- C1: every `POST /contact` request that fails validation — a required
field missing, a length cap exceeded (name over 200, email over 320,
message over 5000 characters), a malformed email, unparsable JSON, or a
failed bot verification — gets a 4xx status and inserts no Submission
row. -/
theorem c1_validation_failure_4xx_no_row (req : ContactRequest)
    (w : ContactWorld) (h : contactValidationFails req w) :
    400 ≤ (handleContact req w).status ∧ (handleContact req w).status < 500 ∧
    (handleContact req w).submissions = [] := by
  unfold handleContact
  by_cases hcl : jsGtQ req.contentLength 65536 = true
  · rw [if_pos hcl]; simp [errRes]
  · rw [if_neg hcl]
    by_cases ha : (rateLimit w.rlRec w.now).allowed = false
    · rw [if_pos ha]; simp [errRes]
    · rw [if_neg ha]
      obtain ⟨h1, h2⟩ := handleContactBody_validation req w _ h
      exact ⟨by omega, by omega, h2⟩

/-- Witness for C1: an unparsable JSON body is refused with a 4xx and no
row. -/
theorem c1_validation_failure_4xx_no_row_witness :
    400 ≤ (handleContact ⟨some 10, "203.0.113.7", "UA", .malformed⟩
             ⟨0, none, true, true, .sent⟩).status ∧
    (handleContact ⟨some 10, "203.0.113.7", "UA", .malformed⟩
       ⟨0, none, true, true, .sent⟩).status < 500 ∧
    (handleContact ⟨some 10, "203.0.113.7", "UA", .malformed⟩
       ⟨0, none, true, true, .sent⟩).submissions = [] :=
  c1_validation_failure_4xx_no_row _ _ (Or.inl rfl)

/-- C4: a `POST /contact` request whose Submission row was persisted (the
handler inserted a row) but whose notification email fails — by exception
or by a non-success HTTP status at the token exchange or the send call —
still returns status 200 with `ok: true` and `delivered: false`. -/
theorem c4_email_failure_still_ok (req : ContactRequest) (w : ContactWorld)
    (hrow : (handleContact req w).submissions ≠ [])
    (hg : w.gmail ≠ .sent) :
    (handleContact req w).status = 200 ∧ (handleContact req w).ok = true ∧
    (handleContact req w).delivered = false := by
  unfold handleContact at hrow ⊢
  by_cases hcl : jsGtQ req.contentLength 65536 = true
  · rw [if_pos hcl] at hrow ⊢; simp [errRes] at hrow
  · rw [if_neg hcl] at hrow ⊢
    by_cases ha : (rateLimit w.rlRec w.now).allowed = false
    · rw [if_pos ha] at hrow ⊢; simp [errRes] at hrow
    · rw [if_neg ha] at hrow ⊢
      rcases hb : req.body with _ | ⟨n, e, m, t⟩ <;>
        simp only [handleContactBody, hb] at hrow ⊢
      · simp [errRes] at hrow
      · split_ifs at hrow ⊢ with h1 h2 h3 h4 h5 <;>
          first
          | exact ⟨rfl, rfl, by cases hgm : w.gmail <;>
              simp_all [GmailResult.delivered]⟩
          | simp [errRes] at hrow

/-- Witness for C4: a fully valid submission whose token exchange fails is
stored and acknowledged with `ok: true, delivered: false`. -/
theorem c4_email_failure_still_ok_witness :
    (handleContact ⟨some 100, "203.0.113.7", "UA",
        .parsed (some "Alice") (some "a@b.com") (some "Hi") (some "tok")⟩
      ⟨0, none, true, true, .tokenFail⟩).status = 200 ∧
    (handleContact ⟨some 100, "203.0.113.7", "UA",
        .parsed (some "Alice") (some "a@b.com") (some "Hi") (some "tok")⟩
      ⟨0, none, true, true, .tokenFail⟩).ok = true ∧
    (handleContact ⟨some 100, "203.0.113.7", "UA",
        .parsed (some "Alice") (some "a@b.com") (some "Hi") (some "tok")⟩
      ⟨0, none, true, true, .tokenFail⟩).delivered = false :=
  c4_email_failure_still_ok _ _ (by decide) (by decide)

/-! ## C10: the 413 size cap depends only on the declared Content-Length -/

/-- C10: a `POST /contact` request whose Content-Length header parses to a
number strictly greater than 65536 is rejected as a bare 413 before any
other processing (no KV write, no insert, no body handling), while a
request whose header is missing (`Number("0") = 0`) or non-numeric
(`NaN`, on which `>` is false) is never rejected with 413, whatever its
body. -/
theorem c10_content_length_gate (req : ContactRequest) (w : ContactWorld) :
    (∀ q : ℚ, req.contentLength = some q → 65536 < q →
      handleContact req w = errRes 413 "Payload too large" none)
    ∧ ((req.contentLength = none ∨ req.contentLength = some 0) →
      (handleContact req w).status ≠ 413) := by
  constructor
  · intro q hq hgt
    unfold handleContact
    rw [if_pos (by simp [jsGtQ, hq, hgt])]
  · intro hcl
    have hfalse : jsGtQ req.contentLength 65536 = false := by
      rcases hcl with h | h <;> simp [jsGtQ, h]
    unfold handleContact
    rw [hfalse]
    by_cases ha : (rateLimit w.rlRec w.now).allowed = false
    · simp [ha, errRes]
    · simp [ha, handleContactBody_status_ne_413]

/-- Witness for C10: a declared length of 100000 is refused outright; a
missing (`0`) header is not refused as 413 even with a malformed body. -/
theorem c10_content_length_gate_witness :
    handleContact ⟨some 100000, "203.0.113.7", "UA", .malformed⟩
        ⟨0, none, true, true, .sent⟩ =
      errRes 413 "Payload too large" none ∧
    (handleContact ⟨none, "203.0.113.7", "UA", .malformed⟩
        ⟨0, none, true, true, .sent⟩).status ≠ 413 :=
  ⟨(c10_content_length_gate _ _).1 100000 rfl (by norm_num),
   (c10_content_length_gate _ _).2 (Or.inl rfl)⟩

/-! ## C3: the email check -/

/-- C3: the pipeline's email check accepts a string exactly when it is a
local part of 1–64 characters with no `'@'` and no whitespace, then
`'@'`, then a domain part of 1–255 characters with no whitespace and no
`'@'`; in particular `"a@b"` is accepted, `"a @b.com"` and every string
without an `'@'` are rejected, and a request that reaches the email check
with a failing email gets a 400 "Invalid email". -/
theorem c3_email_check :
    (∀ e, emailOk e = true ↔ specEmailOk e)
    ∧ emailOk "a@b" = true
    ∧ emailOk "a @b.com" = false
    ∧ (∀ e : String, '@' ∉ e.toList → emailOk e = false)
    ∧ (∀ (req : ContactRequest) (w : ContactWorld) (n e m t : Option String),
        req.body = .parsed n e m t →
        jsGtQ req.contentLength 65536 = false →
        (rateLimit w.rlRec w.now).allowed = true →
        truthy n = true → truthy e = true → truthy m = true → truthy t = true →
        (jsPlusStr n).length ≤ 200 → (jsPlusStr e).length ≤ 320 →
        (jsPlusStr m).length ≤ 5000 →
        emailOk (jsPlusStr e) = false →
        (handleContact req w).status = 400 ∧
        (handleContact req w).error = some "Invalid email") := by
  refine ⟨emailOk_iff_specEmailOk, by decide, by decide,
    fun e h => emailOk_eq_false_of_no_at h, ?_⟩
  intro req w n e m t hb hcl ha htn hte htm htt hln hle hlm hbad
  unfold handleContact
  rw [hcl]
  rw [if_neg (show ¬(rateLimit w.rlRec w.now).allowed = false by
    rw [ha]; simp)]
  simp only [handleContactBody, hb]
  rw [if_neg (show ¬(truthy n = false ∨ truthy e = false ∨ truthy m = false ∨
    truthy t = false) by simp [htn, hte, htm, htt])]
  rw [if_neg (show ¬(200 < (jsPlusStr n).length ∨ 320 < (jsPlusStr e).length ∨
    5000 < (jsPlusStr m).length) from fun hor => by
      rcases hor with hx | hx | hx <;> omega)]
  rw [if_pos hbad]
  exact ⟨rfl, rfl⟩

/-- Witness for C3: a request carrying the email `"a @b.com"` that passes
every earlier check is rejected with 400 "Invalid email". -/
theorem c3_email_check_witness :
    (handleContact ⟨some 50, "203.0.113.7", "UA",
        .parsed (some "Bob") (some "a @b.com") (some "Yo") (some "tok")⟩
      ⟨0, none, true, true, .sent⟩).status = 400 ∧
    (handleContact ⟨some 50, "203.0.113.7", "UA",
        .parsed (some "Bob") (some "a @b.com") (some "Yo") (some "tok")⟩
      ⟨0, none, true, true, .sent⟩).error = some "Invalid email" :=
  c3_email_check.2.2.2.2 _ _ _ _ _ _ rfl (by decide) (by decide) (by decide)
    (by decide) (by decide) (by decide) (by decide) (by decide) (by decide)
    (by decide)

/-! ## C2: six requests in one window -/

theorem runContacts_cons (st : Option RateRec) (i : StepIn) (is : List StepIn)
    (h : jsGtQ i.req.contentLength 65536 = false) :
    runContacts st (i :: is) =
      handleContact i.req ⟨i.now, st, i.ts, i.insertOk, i.gmail⟩ ::
        runContacts (some (rateLimit st i.now).record) is := by
  simp only [runContacts]
  rw [handleContact_kvPut i.req ⟨i.now, st, i.ts, i.insertOk, i.gmail⟩ h]

theorem handleContact_probe (req : ContactRequest) (nw : ℤ)
    (st : Option RateRec) (ts iok : Bool) (g : GmailResult)
    (h : jsGtQ req.contentLength 65536 = false) :
    (decide ((handleContact req ⟨nw, st, ts, iok, g⟩).status = 429),
      (handleContact req ⟨nw, st, ts, iok, g⟩).kvPut.map (fun p => p.1.count))
      = (!(rateLimit st nw).allowed,
         some (rateLimit st nw).record.count) := by
  have hk := handleContact_kvPut req ⟨nw, st, ts, iok, g⟩ h
  have hi := handleContact_status429_iff req ⟨nw, st, ts, iok, g⟩ h
  cases hA : (rateLimit st nw).allowed with
  | false =>
    have hs : (handleContact req ⟨nw, st, ts, iok, g⟩).status = 429 :=
      hi.mpr hA
    simp [hs, hk, hA]
  | true =>
    have hs : (handleContact req ⟨nw, st, ts, iok, g⟩).status ≠ 429 := by
      intro hc
      have := hi.mp hc
      rw [hA] at this
      simp at this
    simp [hs, hk, hA]

/-- C2: a fixed IP issuing 6 `POST /contact` requests inside one 10-minute
window (none of them stopped by the size cap, each arriving no later than
the window deadline set by the first): every attempt increments the stored
counter before the limit check — the recorded counts are 1,2,3,4,5,6 — the
first five pass the rate-limit check (status ≠ 429, so they proceed to
validation), and the sixth, whose post-increment count 6 exceeds the
ceiling 5, is rejected with 429 regardless of its content. -/
theorem c2_sixth_request_rejected (i1 i2 i3 i4 i5 i6 : StepIn)
    (h1 : jsGtQ i1.req.contentLength 65536 = false)
    (h2 : jsGtQ i2.req.contentLength 65536 = false)
    (h3 : jsGtQ i3.req.contentLength 65536 = false)
    (h4 : jsGtQ i4.req.contentLength 65536 = false)
    (h5 : jsGtQ i5.req.contentLength 65536 = false)
    (h6 : jsGtQ i6.req.contentLength 65536 = false)
    (t2 : i2.now ≤ i1.now + windowMs)
    (t3 : i3.now ≤ i1.now + windowMs)
    (t4 : i4.now ≤ i1.now + windowMs)
    (t5 : i5.now ≤ i1.now + windowMs)
    (t6 : i6.now ≤ i1.now + windowMs) :
    (runContacts none [i1, i2, i3, i4, i5, i6]).map
        (fun r => (decide (r.status = 429), r.kvPut.map (fun p => p.1.count)))
      = [(false, some 1), (false, some 2), (false, some 3), (false, some 4),
         (false, some 5), (true, some 6)] := by
  have hr1 : (rateLimit (none : Option RateRec) i1.now).record
      = ⟨1, i1.now + windowMs⟩ := by rw [rateLimit_none]
  have ha1 : (rateLimit (none : Option RateRec) i1.now).allowed = true := by
    rw [rateLimit_none]
  have hr2 : (rateLimit (some (⟨1, i1.now + windowMs⟩ : RateRec)) i2.now).record
      = ⟨2, i1.now + windowMs⟩ := by
    rw [(rateLimit_active 1 (i1.now + windowMs) i2.now (by omega)).1]
    norm_num
  have ha2 : (rateLimit (some (⟨1, i1.now + windowMs⟩ : RateRec)) i2.now).allowed
      = true := by
    rw [(rateLimit_active 1 (i1.now + windowMs) i2.now (by omega)).2]
    decide
  have hr3 : (rateLimit (some (⟨2, i1.now + windowMs⟩ : RateRec)) i3.now).record
      = ⟨3, i1.now + windowMs⟩ := by
    rw [(rateLimit_active 2 (i1.now + windowMs) i3.now (by omega)).1]
    norm_num
  have ha3 : (rateLimit (some (⟨2, i1.now + windowMs⟩ : RateRec)) i3.now).allowed
      = true := by
    rw [(rateLimit_active 2 (i1.now + windowMs) i3.now (by omega)).2]
    decide
  have hr4 : (rateLimit (some (⟨3, i1.now + windowMs⟩ : RateRec)) i4.now).record
      = ⟨4, i1.now + windowMs⟩ := by
    rw [(rateLimit_active 3 (i1.now + windowMs) i4.now (by omega)).1]
    norm_num
  have ha4 : (rateLimit (some (⟨3, i1.now + windowMs⟩ : RateRec)) i4.now).allowed
      = true := by
    rw [(rateLimit_active 3 (i1.now + windowMs) i4.now (by omega)).2]
    decide
  have hr5 : (rateLimit (some (⟨4, i1.now + windowMs⟩ : RateRec)) i5.now).record
      = ⟨5, i1.now + windowMs⟩ := by
    rw [(rateLimit_active 4 (i1.now + windowMs) i5.now (by omega)).1]
    norm_num
  have ha5 : (rateLimit (some (⟨4, i1.now + windowMs⟩ : RateRec)) i5.now).allowed
      = true := by
    rw [(rateLimit_active 4 (i1.now + windowMs) i5.now (by omega)).2]
    decide
  have hr6 : (rateLimit (some (⟨5, i1.now + windowMs⟩ : RateRec)) i6.now).record
      = ⟨6, i1.now + windowMs⟩ := by
    rw [(rateLimit_active 5 (i1.now + windowMs) i6.now (by omega)).1]
    norm_num
  have ha6 : (rateLimit (some (⟨5, i1.now + windowMs⟩ : RateRec)) i6.now).allowed
      = false := by
    rw [(rateLimit_active 5 (i1.now + windowMs) i6.now (by omega)).2]
    decide
  rw [runContacts_cons _ _ _ h1, hr1,
      runContacts_cons _ _ _ h2, hr2,
      runContacts_cons _ _ _ h3, hr3,
      runContacts_cons _ _ _ h4, hr4,
      runContacts_cons _ _ _ h5, hr5,
      runContacts_cons _ _ _ h6, hr6]
  simp only [runContacts, List.map_cons, List.map_nil]
  rw [handleContact_probe i1.req i1.now none i1.ts i1.insertOk i1.gmail h1,
      handleContact_probe i2.req i2.now (some ⟨1, i1.now + windowMs⟩)
        i2.ts i2.insertOk i2.gmail h2,
      handleContact_probe i3.req i3.now (some ⟨2, i1.now + windowMs⟩)
        i3.ts i3.insertOk i3.gmail h3,
      handleContact_probe i4.req i4.now (some ⟨3, i1.now + windowMs⟩)
        i4.ts i4.insertOk i4.gmail h4,
      handleContact_probe i5.req i5.now (some ⟨4, i1.now + windowMs⟩)
        i5.ts i5.insertOk i5.gmail h5,
      handleContact_probe i6.req i6.now (some ⟨5, i1.now + windowMs⟩)
        i6.ts i6.insertOk i6.gmail h6]
  rw [hr1, ha1, hr2, ha2, hr3, ha3, hr4, ha4, hr5, ha5, hr6, ha6]
  simp

/-- Witness for C2: six identical requests from one IP at time 0. -/
theorem c2_sixth_request_rejected_witness :
    (runContacts none
        [⟨⟨some 10, "203.0.113.7", "UA", .malformed⟩, 0, true, true, .sent⟩,
         ⟨⟨some 10, "203.0.113.7", "UA", .malformed⟩, 0, true, true, .sent⟩,
         ⟨⟨some 10, "203.0.113.7", "UA", .malformed⟩, 0, true, true, .sent⟩,
         ⟨⟨some 10, "203.0.113.7", "UA", .malformed⟩, 0, true, true, .sent⟩,
         ⟨⟨some 10, "203.0.113.7", "UA", .malformed⟩, 0, true, true, .sent⟩,
         ⟨⟨some 10, "203.0.113.7", "UA", .malformed⟩, 0, true, true, .sent⟩]).map
        (fun r => (decide (r.status = 429), r.kvPut.map (fun p => p.1.count)))
      = [(false, some 1), (false, some 2), (false, some 3), (false, some 4),
         (false, some 5), (true, some 6)] :=
  c2_sixth_request_rejected _ _ _ _ _ _
    (by decide) (by decide) (by decide) (by decide) (by decide) (by decide)
    (by decide) (by decide) (by decide) (by decide) (by decide)

/-! ## C5: `/resume.pdf` -/

/-- C5: every `GET /resume.pdf` request returns the fetched file with its
content and status unchanged and the security headers applied, even when
the `downloads` insert fails (`insertOk = false`): the error is swallowed
and no row is inserted, but delivery is unaffected; a PDF response also
receives the 7-day immutable cache header. -/
theorem c5_resume_always_served (insertOk : Bool) (file : Resp) :
    (handleResume insertOk file).resp.body = file.body ∧
    (handleResume insertOk file).resp.status = file.status ∧
    (handleResume insertOk file).resp.headers "X-Frame-Options" = some "DENY" ∧
    (handleResume insertOk file).resp.headers "X-Content-Type-Options" =
      some "nosniff" ∧
    (handleResume insertOk file).resp.headers "Strict-Transport-Security" =
      some "max-age=31536000; includeSubDomains; preload" ∧
    (handleResume insertOk file).resp.headers "Content-Security-Policy" =
      some cspValue ∧
    (insertOk = false → (handleResume insertOk file).downloads = []) ∧
    (containsStr (lowerStr ((file.headers "Content-Type").getD ""))
        "application/pdf" = true →
      containsStr (lowerStr ((file.headers "Content-Type").getD ""))
        "text/html" = false →
      (handleResume insertOk file).resp.headers "Cache-Control" =
        some "public, max-age=604800, immutable") := by
  refine ⟨?_, ?_, ?_, ?_, ?_, ?_, ?_, ?_⟩
  · simp only [handleResume, withSecurityAndCacheHeaders]
  · simp only [handleResume, withSecurityAndCacheHeaders]
  · simp only [handleResume, withSecurityAndCacheHeaders, securityHeaders]
    split_ifs <;> simp [hset]
  · simp only [handleResume, withSecurityAndCacheHeaders, securityHeaders]
    split_ifs <;> simp [hset]
  · simp only [handleResume, withSecurityAndCacheHeaders, securityHeaders]
    split_ifs <;> simp [hset]
  · simp only [handleResume, withSecurityAndCacheHeaders, securityHeaders]
    split_ifs <;> simp [hset]
  · intro h
    simp [handleResume, h]
  · intro hpdf hhtml
    simp only [handleResume, withSecurityAndCacheHeaders]
    rw [if_neg (by rw [hhtml]; simp)]
    rw [if_pos (by rw [hpdf]; simp)]
    simp [hset]

/-- Witness for C5: a PDF asset is delivered unchanged, with the cache
header, while a failing insert leaves the downloads table untouched. -/
theorem c5_resume_always_served_witness :
    (handleResume false ⟨200, "%PDF-1.4",
        fun k => if k = "Content-Type" then some "application/pdf"
        else none⟩).resp.body = "%PDF-1.4" ∧
    (handleResume false ⟨200, "%PDF-1.4",
        fun k => if k = "Content-Type" then some "application/pdf"
        else none⟩).downloads = [] ∧
    (handleResume false ⟨200, "%PDF-1.4",
        fun k => if k = "Content-Type" then some "application/pdf"
        else none⟩).resp.headers "Cache-Control" =
      some "public, max-age=604800, immutable" ∧
    (handleResume false ⟨200, "%PDF-1.4",
        fun k => if k = "Content-Type" then some "application/pdf"
        else none⟩).resp.headers "X-Frame-Options" = some "DENY" :=
  ⟨(c5_resume_always_served false _).1,
   (c5_resume_always_served false _).2.2.2.2.2.2.1 rfl,
   (c5_resume_always_served false _).2.2.2.2.2.2.2 (by decide) (by decide),
   (c5_resume_always_served false _).2.2.1⟩

/-! ## C6: `/go/:key` -/

/-- C6: when the key maps to a target URL in KV (and the click insert does
not throw), exactly one Click row is inserted — carrying the short key and
the resolved target — and the response is a 302 redirect to exactly the
stored target; when the key has no mapping, the response is a plain-text
404 and no Click row is inserted. -/
theorem c6_shortlink (kv : String → Option String) (dbOk : Bool)
    (key ref ip ua : String) :
    (∀ target, kv ("shortlinks:" ++ key) = some target → dbOk = true →
      handleShortlink kv dbOk key ref ip ua =
        { status := 302, body := none, location := some target
          clicks := [⟨key, target, ref, ip, ua⟩] })
    ∧ (kv ("shortlinks:" ++ key) = none →
      handleShortlink kv dbOk key ref ip ua =
        { status := 404, body := some "Shortlink not found"
          location := none, clicks := [] }) := by
  constructor
  · intro target ht hdb
    simp [handleShortlink, ht, hdb]
  · intro hm
    simp [handleShortlink, hm]

/-- Witness for C6: `abc ↦ https://example.com` redirects with one click
row; an unmapped key 404s with none. -/
theorem c6_shortlink_witness :
    handleShortlink
        (fun k => if k = "shortlinks:abc" then some "https://example.com"
          else none) true "abc" "" "203.0.113.7" "UA" =
      { status := 302, body := none, location := some "https://example.com"
        clicks := [⟨"abc", "https://example.com", "", "203.0.113.7", "UA"⟩] } ∧
    handleShortlink
        (fun k => if k = "shortlinks:abc" then some "https://example.com"
          else none) true "doesnotexist" "" "203.0.113.7" "UA" =
      { status := 404, body := some "Shortlink not found"
        location := none, clicks := [] } :=
  ⟨(c6_shortlink _ _ _ _ _ _).1 "https://example.com" (by decide) rfl,
   (c6_shortlink _ _ _ _ _ _).2 (by decide)⟩

/-! ## C9: `/badge` -/

/-- C9: the badge response always carries `Cache-Control: no-store`; its
SVG body shows the open state (green `#2da44e` fill and the
"Open to Opportunities" label) exactly when the resolved flag string is
the literal `"true"`, and the not-open state (`#d73a49`, "Not Open")
otherwise; the flag resolves from KV, then the configured default, then
the hardcoded `"true"`. -/
theorem c9_badge (kvFlag envDefault : Option String) :
    (handleBadge kvFlag envDefault).headers "Cache-Control" = some "no-store"
    ∧ (containsStr (handleBadge kvFlag envDefault).body "#2da44e" = true ↔
        resolveFlag kvFlag envDefault = "true")
    ∧ (containsStr (handleBadge kvFlag envDefault).body
        "Open to Opportunities" = true ↔
        resolveFlag kvFlag envDefault = "true")
    ∧ (containsStr (handleBadge kvFlag envDefault).body "#d73a49" = true ↔
        resolveFlag kvFlag envDefault ≠ "true")
    ∧ (containsStr (handleBadge kvFlag envDefault).body "Not Open" = true ↔
        resolveFlag kvFlag envDefault ≠ "true")
    ∧ (∀ s, kvFlag = some s → resolveFlag kvFlag envDefault = s)
    ∧ (∀ s, kvFlag = none → envDefault = some s →
        resolveFlag kvFlag envDefault = s)
    ∧ (kvFlag = none → envDefault = none →
        resolveFlag kvFlag envDefault = "true") := by
  refine ⟨rfl, ?_, ?_, ?_, ?_, ?_, ?_, ?_⟩
  · by_cases hf : resolveFlag kvFlag envDefault = "true" <;>
      simp [handleBadge, hf] <;> decide
  · by_cases hf : resolveFlag kvFlag envDefault = "true" <;>
      simp [handleBadge, hf] <;> decide
  · by_cases hf : resolveFlag kvFlag envDefault = "true" <;>
      simp [handleBadge, hf] <;> decide
  · by_cases hf : resolveFlag kvFlag envDefault = "true" <;>
      simp [handleBadge, hf] <;> decide
  · intro s hs; simp [resolveFlag, hs]
  · intro s hk hd; simp [resolveFlag, hk, hd]
  · intro hk hd; simp [resolveFlag, hk, hd]

/-- Witness for C9: a KV value other than `"true"` wins over an
environment default of `"true"`, and the response is non-cacheable. -/
theorem c9_badge_witness :
    (handleBadge (some "nope") (some "true")).headers "Cache-Control" =
      some "no-store" ∧
    resolveFlag (some "nope") (some "true") = "nope" :=
  ⟨(c9_badge (some "nope") (some "true")).1,
   (c9_badge (some "nope") (some "true")).2.2.2.2.2.1 "nope" rfl⟩

/-! ## C8: the downloads "counter" -/

/-- C8 is refuted: the résumé server inserts a fresh `downloads` row with
the constant value `count = 1` on every download, so across two successive
successful downloads the stored counter values are `[1, 1]` — they do not
strictly increase from one recorded download to the next. -/
theorem c8_download_counter_constant :
    (runResume [(true, ⟨200, "PDF", fun _ => none⟩),
                (true, ⟨200, "PDF", fun _ => none⟩)]).map DownloadRow.count
      = [1, 1] ∧
    ¬ List.Chain' (· < ·)
      ((runResume [(true, ⟨200, "PDF", fun _ => none⟩),
                   (true, ⟨200, "PDF", fun _ => none⟩)]).map
        DownloadRow.count) := by
  refine ⟨by decide, ?_⟩
  intro h
  rw [show (runResume [(true, ⟨200, "PDF", fun _ => none⟩),
      (true, ⟨200, "PDF", fun _ => none⟩)]).map DownloadRow.count
      = [1, 1] from by decide] at h
  simp [List.chain'_cons] at h
